import Mathlib

/-!
Shallow embedding of the Wick engine timeline/tween core
(src/engine/src/base/Tween.js and the Wick.Project class), with numeric
values modelled as rationals.  Definitions mirror the JavaScript source;
the few helpers the source calls but whose code is not in the repository
snapshot (the global lerp helper, the third-party easing curves, the
Transformation class, Clip.tick) are modelled from the specification and
say so in their doc comments.
-/

/-- Modelled from the spec: the Wick.Transformation class is absent from
src/; per the spec a transformation has the six channels
x, y, scaleX, scaleY, rotation, opacity. -/
structure Transformation where
  x : ℚ
  y : ℚ
  scaleX : ℚ
  scaleY : ℚ
  rotation : ℚ
  opacity : ℚ
deriving DecidableEq, Repr

/-- Modelled from the spec: the default transformation produced by
new Wick.Transformation() with no arguments (identity transform). -/
def Transformation.identityDefault : Transformation :=
  { x := 0, y := 0, scaleX := 1, scaleY := 1, rotation := 0, opacity := 1 }

/-- Wick.Tween.VALID_EASING_TYPES. -/
def VALID_EASING_TYPES : List String := ["none", "in", "out", "in-out"]

/-- The state of a Wick.Tween object.  The backing field of the easingType
accessor pair is _easingType; none models the JavaScript value undefined
(the constructor routes its argument through the setter, which stores
nothing when the argument is invalid). -/
structure Tween where
  playheadPosition : ℚ
  transformation : Transformation
  fullRotations : ℚ
  _easingType : Option String
deriving DecidableEq, Repr

/-- The args object accepted by the Wick.Tween constructor; none models a
missing (undefined) property. -/
structure TweenArgs where
  playheadPosition : Option ℚ
  transformation : Option Transformation
  fullRotations : Option ℚ
  easingType : Option String
deriving DecidableEq, Repr

/-- Wick.Tween set easingType: stores the value only when it is in
VALID_EASING_TYPES (indexOf check); otherwise warns and returns, leaving
the backing field unchanged. -/
def Tween.setEasingType (tw : Tween) (easingType : String) : Tween :=
  if easingType ∈ VALID_EASING_TYPES then
    { tw with _easingType := some easingType }
  else
    tw

/-- Wick.Tween get easingType: returns the backing field. -/
def Tween.easingType (tw : Tween) : Option String :=
  tw._easingType

/-- The Wick.Tween constructor.
playheadPosition: args.playheadPosition || 1 (JavaScript truthiness: a
missing value and 0 fall back to 1, every other number passes through).
transformation: args.transformation || new Wick.Transformation().
fullRotations: args.fullRotations === undefined ? 0 : args.fullRotations.
easingType: args.easingType || the string none, assigned through the
easingType setter starting from an undefined backing field. -/
def Tween.construct (args : TweenArgs) : Tween :=
  let ph : ℚ := match args.playheadPosition with
    | none => 1
    | some v => if v = 0 then 1 else v
  let tr : Transformation := match args.transformation with
    | none => Transformation.identityDefault
    | some t => t
  let fr : ℚ := match args.fullRotations with
    | none => 0
    | some v => v
  let et : String := match args.easingType with
    | none => "none"
    | some s => if s = "" then "none" else s
  Tween.setEasingType
    { playheadPosition := ph, transformation := tr, fullRotations := fr,
      _easingType := none } et

/-- Modelled from the spec: the global lerp helper used by
Wick.Tween.interpolate is not in src/; the spec calls for plain linear
interpolation of the endpoint values. -/
def lerp (a b t : ℚ) : ℚ := a + (b - a) * t

/-- Wick.Tween._calculateTimeValue: t = (playheadPosition - A) / (B - A). -/
def Tween.calculateTimeValue (tweenA tweenB : Tween) (playheadPosition : ℚ) : ℚ :=
  let tweenAPlayhead := tweenA.playheadPosition
  let tweenBPlayhead := tweenB.playheadPosition
  let dist := tweenBPlayhead - tweenAPlayhead
  (playheadPosition - tweenAPlayhead) / dist

/-- Modelled from the spec: the third-party linear easing curve selected
by easing type none; the spec pins it to the identity (tt == t). -/
def linearNone (k : ℚ) : ℚ := k

/-- Modelled from the spec: the third-party quadratic ease-in curve. -/
def quadraticIn (k : ℚ) : ℚ := k * k

/-- Modelled from the spec: the third-party quadratic ease-out curve. -/
def quadraticOut (k : ℚ) : ℚ := k * (2 - k)

/-- Modelled from the spec: the third-party quadratic ease-in-out curve. -/
def quadraticInOut (k : ℚ) : ℚ :=
  let k2 := k * 2
  if k2 < 1 then 1 / 2 * k2 * k2
  else
    let k3 := k2 - 1; -(1 / 2) * (k3 * (k3 - 2) - 1)

/-- Wick.Tween._getTweenFunction: an object-literal lookup keyed by the
easingType getter; any key outside the four entries (including an
undefined backing field) yields undefined, modelled as none. -/
def Tween.getTweenFunction (tw : Tween) : Option (ℚ → ℚ) :=
  match tw.easingType with
  | some "none" => some linearNone
  | some "in" => some quadraticIn
  | some "out" => some quadraticOut
  | some "in-out" => some quadraticInOut
  | _ => none

/-- The first rotation-constraining loop in Wick.Tween.interpolate:
while (val < -180) val += 360. -/
def constrainLow (v : ℚ) : ℚ :=
  if h : v < -180 then constrainLow (v + 360) else v
termination_by (⌈-v⌉).toNat
decreasing_by
  have hpos : (0 : ℤ) < ⌈-v⌉ := by
    rw [Int.ceil_pos]
    linarith
  have hsub : ⌈-(v + 360)⌉ = ⌈-v⌉ - 360 := by
    have : -(v + 360) = -v - ((360 : ℤ) : ℚ) := by push_cast; ring
    rw [this, Int.ceil_sub_int]
  rw [hsub]
  exact (Int.toNat_lt_toNat hpos).mpr (by omega)

/-- The second rotation-constraining loop in Wick.Tween.interpolate:
while (val > 180) val -= 360. -/
def constrainHigh (v : ℚ) : ℚ :=
  if h : v > 180 then constrainHigh (v - 360) else v
termination_by (⌈v⌉).toNat
decreasing_by
  have hpos : (0 : ℤ) < ⌈v⌉ := by
    rw [Int.ceil_pos]
    linarith
  have hsub : ⌈v - 360⌉ = ⌈v⌉ - 360 := by
    have : v - 360 = v - ((360 : ℤ) : ℚ) := by push_cast; ring
    rw [this, Int.ceil_sub_int]
  rw [hsub]
  exact (Int.toNat_lt_toNat hpos).mpr (by omega)

/-- Both constraining loops in sequence, as applied to each endpoint
rotation value in Wick.Tween.interpolate. -/
def constrainRot (v : ℚ) : ℚ := constrainHigh (constrainLow v)

/-- Wick.Tween.interpolate.  Builds a fresh tween (new Wick.Tween()),
computes t, fetches tween A's easing function, and fills each of the six
transformation channels with lerp(valA, valB, tt); the rotation channel
first constrains both endpoint values to [-180, 180] with the two while
loops and adds tweenA.fullRotations * 360 to the destination value.
Returns none when the easing-function lookup yields undefined, in which
case the JavaScript call tweenFn(t) would throw. -/
def Tween.interpolate (tweenA tweenB : Tween) (playheadPosition : ℚ) : Option Tween :=
  let interpTween := Tween.construct ⟨none, none, none, none⟩
  let t := Tween.calculateTimeValue tweenA tweenB playheadPosition
  match tweenA.getTweenFunction with
  | none => none
  | some tweenFn =>
    let tt := tweenFn t
    let trA := tweenA.transformation
    let trB := tweenB.transformation
    let rotA := constrainRot trA.rotation
    let rotB := constrainRot trB.rotation + tweenA.fullRotations * 360
    some { interpTween with
           playheadPosition := playheadPosition,
           transformation :=
             { x := lerp trA.x trB.x tt,
               y := lerp trA.y trB.y tt,
               scaleX := lerp trA.scaleX trB.scaleX tt,
               scaleY := lerp trA.scaleY trB.scaleY tt,
               rotation := lerp rotA rotB tt,
               opacity := lerp trA.opacity trB.opacity tt } }

/-- The serialized form of a tween produced by Wick.Tween.serialize.
transformation holds this.transformation.values (the six channel values);
easingType holds the value of the easingType getter, which is undefined
(none) when the backing field was never set. -/
structure TweenData where
  playheadPosition : ℚ
  transformation : Transformation
  fullRotations : ℚ
  easingType : Option String
deriving DecidableEq, Repr

/-- Wick.Tween.serialize: copies playheadPosition, transformation.values,
fullRotations and the easingType getter into the data object. -/
def Tween.serialize (tw : Tween) : TweenData :=
  { playheadPosition := tw.playheadPosition,
    transformation := tw.transformation,
    fullRotations := tw.fullRotations,
    easingType := tw.easingType }

/-- Wick.Tween.deserialize: assigns playheadPosition, rebuilds the
transformation from data.transformation, assigns fullRotations, and
assigns data.easingType through the easingType setter (an undefined or
invalid value is rejected by the setter, leaving the field unchanged). -/
def Tween.deserialize (tw : Tween) (data : TweenData) : Tween :=
  let tw1 := { tw with
    playheadPosition := data.playheadPosition,
    transformation := data.transformation,
    fullRotations := data.fullRotations }
  match data.easingType with
  | some e => Tween.setEasingType tw1 e
  | none => tw1

/-- A script error object as collected during a tick; a JavaScript object
is always truthy, so any collected error makes the play loop's if (error)
check fire. -/
structure ScriptError where
  message : String
deriving DecidableEq, Repr

/-- Modelled from the spec: the outcome of running one per-frame or
per-object script during a tick. -/
inductive ScriptOutcome where
  | success : ScriptOutcome
  | failure : ScriptError → ScriptOutcome
deriving DecidableEq, Repr

/-- Modelled from the spec: the first script failure among the scripts a
tick executes, if any. -/
def firstScriptError : List ScriptOutcome → Option ScriptError
  | [] => none
  | ScriptOutcome.success :: rest => firstScriptError rest
  | ScriptOutcome.failure e :: _ => some e

/-- The slice of a Wick.Clip's state the Project methods under study
touch: its uuid, the scripts its tick would execute, and the playhead
position of each subclip timeline reachable as
clip.timeline.clips[i].timeline.playheadPosition. -/
structure Clip where
  uuid : String
  scripts : List ScriptOutcome
  subclipPlayheads : List ℚ
deriving DecidableEq, Repr

/-- Modelled from the spec: Wick.Clip.tick is absent from src/; per the
spec a tick executes the clip's scripts and collects the first script
failure (if any) as the tick's reported error rather than throwing. -/
def Clip.tick (c : Clip) : Option ScriptError :=
  firstScriptError c.scripts

/-- The slice of a Wick.Project's state touched by the methods under
study.  The view, gui, sound, clipboard and history members are rendering
or editor machinery with no modelled state. -/
structure Project where
  name : String
  width : ℚ
  height : ℚ
  framerate : ℚ
  backgroundColor : String
  panX : ℚ
  panY : ℚ
  zoom : ℚ
  onionSkinEnabled : Bool
  onionSkinSeekBackwards : ℚ
  onionSkinSeekForwards : ℚ
  _focus : String
  focusClip : Clip
  selectionUUIDs : List String
  _keysDown : List String
  _keysLastDown : List String
  _tickIntervalID : Option ℕ
deriving DecidableEq, Repr

/-- Wick.Project.tick: processes input and renders through the view
(no modelled state), ticks the focused clip, copies _keysDown into
_keysLastDown, and returns the error the focused clip's tick produced. -/
def Project.tick (p : Project) : Project × Option ScriptError :=
  let error := p.focusClip.tick
  ({ p with _keysLastDown := p._keysDown }, error)

/-- Wick.Project.stop: stops sounds (no modelled state) and clears the
tick interval. -/
def Project.stop (p : Project) : Project :=
  { p with _tickIntervalID := none }

/-- One iteration of the interval callback installed by Wick.Project.play:
runs this.tick(), and if the returned error is truthy calls onError with
it, stops the project and skips onAfterTick.  The second component is the
value passed to onError (none when onError was not called); the third is
whether onAfterTick ran. -/
def Project.playStep (p : Project) : Project × Option ScriptError × Bool :=
  let r := p.tick
  match r.2 with
  | some e => ((r.1).stop, some e, false)
  | none => (r.1, none, true)

/-- Wick.Project set focus: stores the new focus uuid, resets every
subclip timeline of the new focused clip to playhead position 1, and on
an actual focus change recenters (pan reset to the origin, zoom to 1) and
clears the selection. -/
def Project.setFocus (p : Project) (focus : Clip) : Project :=
  let oldFocusUUID := p._focus
  let newFocusUUID := focus.uuid
  let focusReset := { focus with
    subclipPlayheads := focus.subclipPlayheads.map (fun _ => (1 : ℚ)) }
  let p1 := { p with _focus := newFocusUUID, focusClip := focusReset }
  if oldFocusUUID = newFocusUUID then p1
  else { p1 with panX := 0, panY := 0, zoom := 1, selectionUUIDs := [] }

/-- The playhead write performed by the renderFrame loop inside
Wick.Project.generateImageSequence: once the playhead has reached the
timeline length the loop finishes, otherwise playheadPosition++. -/
def generateImageSequenceStep (playheadPosition timelineLength : ℚ) : Option ℚ :=
  if playheadPosition ≥ timelineLength then none
  else some (playheadPosition + 1)

/-- The playhead value generateImageSequence assigns before the loop
(project.focus.timeline.playheadPosition = 1). -/
def generateImageSequenceInitialPlayhead : ℚ := 1

/-- The result of calling a JavaScript method that may terminate with an
uncaught ReferenceError. -/
inductive JSOutcome (α : Type) where
  | ok : α → JSOutcome α
  | referenceError : String → JSOutcome α
deriving DecidableEq, Repr

/-- The serialized data consumed by the Wick.Project instance method
deserialize.  pan is an optional object; zoom, onionSkinEnabled and the
onion-skin seek values are plain values guarded by truthiness checks. -/
structure ProjectData where
  name : String
  width : ℚ
  height : ℚ
  framerate : ℚ
  backgroundColor : String
  pan : Option (ℚ × ℚ)
  zoom : ℚ
  onionSkinEnabled : Bool
  onionSkinSeekBackwards : ℚ
  onionSkinSeekForwards : ℚ
  root : String
  selection : String
deriving DecidableEq, Repr

/-- The field assignments the Wick.Project instance method deserialize
performs on this before its final statement. -/
def Project.deserializeAssign (p : Project) (data : ProjectData) : Project :=
  let p1 := { p with
    name := data.name, width := data.width, height := data.height,
    framerate := data.framerate, backgroundColor := data.backgroundColor }
  let p2 := match data.pan with
    | some pan => { p1 with panX := pan.1, panY := pan.2 }
    | none => p1
  let p3 := if data.zoom ≠ 0 then { p2 with zoom := data.zoom } else p2
  let p4 := if data.onionSkinEnabled then
      { p3 with onionSkinEnabled := data.onionSkinEnabled } else p3
  let p5 := if data.onionSkinSeekForwards ≠ 0 then
      { p4 with onionSkinSeekForwards := data.onionSkinSeekForwards } else p4
  let p6 := if data.onionSkinSeekBackwards ≠ 0 then
      { p5 with onionSkinSeekBackwards := data.onionSkinSeekBackwards } else p5
  { p6 with _focus := data.root }

/-- The Wick.Project instance method deserialize: performs its field
assignments and then executes return object, where the identifier object
is not declared anywhere in the method (or enclosing scope), so the call
terminates with an uncaught ReferenceError instead of returning. -/
def Project.deserialize (p : Project) (data : ProjectData) : JSOutcome Project :=
  let _this := Project.deserializeAssign p data
  JSOutcome.referenceError "object"

/- Helper lemmas about the rotation-constraining loops. -/

theorem constrainLow_step (v : ℚ) (h : v < -180) :
    constrainLow v = constrainLow (v + 360) := by
  rw [constrainLow, dif_pos h]

theorem constrainLow_id (v : ℚ) (h : -180 ≤ v) : constrainLow v = v := by
  rw [constrainLow, dif_neg (by linarith)]

theorem constrainHigh_step (v : ℚ) (h : v > 180) :
    constrainHigh v = constrainHigh (v - 360) := by
  rw [constrainHigh, dif_pos h]

theorem constrainHigh_id (v : ℚ) (h : v ≤ 180) : constrainHigh v = v := by
  rw [constrainHigh, dif_neg (by linarith)]

theorem constrainLow_ge (v : ℚ) : -180 ≤ constrainLow v := by
  induction v using constrainLow.induct with
  | case1 v h ih => rw [constrainLow_step v h]; exact ih
  | case2 v h => rw [constrainLow, dif_neg h]; linarith

theorem constrainLow_mod (v : ℚ) : ∃ k : ℤ, constrainLow v = v + 360 * k := by
  induction v using constrainLow.induct with
  | case1 v h ih =>
    obtain ⟨k, hk⟩ := ih
    refine ⟨k + 1, ?_⟩
    rw [constrainLow_step v h, hk]
    push_cast
    ring
  | case2 v h =>
    exact ⟨0, by rw [constrainLow, dif_neg h]; push_cast; ring⟩

theorem constrainHigh_le (v : ℚ) : constrainHigh v ≤ 180 := by
  induction v using constrainHigh.induct with
  | case1 v h ih => rw [constrainHigh_step v h]; exact ih
  | case2 v h => rw [constrainHigh, dif_neg h]; linarith

theorem constrainHigh_ge (v : ℚ) : -180 ≤ v → -180 ≤ constrainHigh v := by
  induction v using constrainHigh.induct with
  | case1 v h' ih =>
    intro _
    rw [constrainHigh_step v h']
    exact ih (by linarith)
  | case2 v h' =>
    intro hv
    rw [constrainHigh, dif_neg h']
    exact hv

theorem constrainHigh_mod (v : ℚ) : ∃ k : ℤ, constrainHigh v = v + 360 * k := by
  induction v using constrainHigh.induct with
  | case1 v h ih =>
    obtain ⟨k, hk⟩ := ih
    refine ⟨k - 1, ?_⟩
    rw [constrainHigh_step v h, hk]
    push_cast
    ring
  | case2 v h =>
    exact ⟨0, by rw [constrainHigh, dif_neg h]; push_cast; ring⟩

theorem constrainRot_ge (v : ℚ) : -180 ≤ constrainRot v :=
  constrainHigh_ge _ (constrainLow_ge v)

theorem constrainRot_le (v : ℚ) : constrainRot v ≤ 180 :=
  constrainHigh_le _

theorem constrainRot_mod (v : ℚ) : ∃ k : ℤ, constrainRot v = v + 360 * k := by
  obtain ⟨k1, hk1⟩ := constrainLow_mod v
  obtain ⟨k2, hk2⟩ := constrainHigh_mod (constrainLow v)
  refine ⟨k1 + k2, ?_⟩
  unfold constrainRot
  rw [hk2, hk1]
  push_cast
  ring

theorem constrainRot_id (v : ℚ) (h1 : -180 ≤ v) (h2 : v ≤ 180) :
    constrainRot v = v := by
  unfold constrainRot
  rw [constrainLow_id v h1, constrainHigh_id v h2]

/- Helper lemmas about the easing-function lookup and interpolate. -/

theorem getTweenFunction_none (tw : Tween) (he : tw._easingType = some "none") :
    tw.getTweenFunction = some linearNone := by
  unfold Tween.getTweenFunction Tween.easingType
  rw [he]
  rfl

theorem getTweenFunction_in (tw : Tween) (he : tw._easingType = some "in") :
    tw.getTweenFunction = some quadraticIn := by
  unfold Tween.getTweenFunction Tween.easingType
  rw [he]
  rfl

theorem getTweenFunction_out (tw : Tween) (he : tw._easingType = some "out") :
    tw.getTweenFunction = some quadraticOut := by
  unfold Tween.getTweenFunction Tween.easingType
  rw [he]
  rfl

theorem getTweenFunction_inout (tw : Tween) (he : tw._easingType = some "in-out") :
    tw.getTweenFunction = some quadraticInOut := by
  unfold Tween.getTweenFunction Tween.easingType
  rw [he]
  rfl

/-- Every valid easing type selects a curve, and every such curve fixes
the endpoints 0 and 1 of the time parameter. -/
theorem getTweenFunction_of_valid (tw : Tween) (e : String)
    (he : tw._easingType = some e) (hv : e ∈ VALID_EASING_TYPES) :
    ∃ fn, tw.getTweenFunction = some fn ∧ fn 0 = 0 ∧ fn 1 = 1 := by
  simp only [VALID_EASING_TYPES, List.mem_cons, List.not_mem_nil, or_false] at hv
  rcases hv with rfl | rfl | rfl | rfl
  · exact ⟨linearNone, getTweenFunction_none tw he, by norm_num [linearNone],
      by norm_num [linearNone]⟩
  · exact ⟨quadraticIn, getTweenFunction_in tw he, by norm_num [quadraticIn],
      by norm_num [quadraticIn]⟩
  · exact ⟨quadraticOut, getTweenFunction_out tw he, by norm_num [quadraticOut],
      by norm_num [quadraticOut]⟩
  · exact ⟨quadraticInOut, getTweenFunction_inout tw he,
      by norm_num [quadraticInOut], by norm_num [quadraticInOut]⟩

/-- Unfolding of Wick.Tween.interpolate once tween A's easing function is
known. -/
theorem interpolate_eq_of_fn (A B : Tween) (p : ℚ) (fn : ℚ → ℚ)
    (hfn : A.getTweenFunction = some fn) :
    Tween.interpolate A B p = some
      { playheadPosition := p,
        transformation :=
          { x := lerp A.transformation.x B.transformation.x
              (fn (Tween.calculateTimeValue A B p)),
            y := lerp A.transformation.y B.transformation.y
              (fn (Tween.calculateTimeValue A B p)),
            scaleX := lerp A.transformation.scaleX B.transformation.scaleX
              (fn (Tween.calculateTimeValue A B p)),
            scaleY := lerp A.transformation.scaleY B.transformation.scaleY
              (fn (Tween.calculateTimeValue A B p)),
            rotation := lerp (constrainRot A.transformation.rotation)
              (constrainRot B.transformation.rotation + A.fullRotations * 360)
              (fn (Tween.calculateTimeValue A B p)),
            opacity := lerp A.transformation.opacity B.transformation.opacity
              (fn (Tween.calculateTimeValue A B p)) },
        fullRotations := 0,
        _easingType := some "none" } := by
  unfold Tween.interpolate
  rw [hfn]
  rfl

/- Concrete sample values used by witnesses and counterexamples. -/

/-- Sample tween A for the boundary-identity counterexample: rotation 360
(outside the normalized range), built by the constructor. -/
def cx1A : Tween := Tween.construct
  ⟨some 1, some { x := 0, y := 0, scaleX := 1, scaleY := 1, rotation := 360,
                  opacity := 1 }, some 0, some "none"⟩

/-- Sample tween B for the boundary-identity counterexample. -/
def cx1B : Tween := Tween.construct
  ⟨some 3, some { x := 4, y := 4, scaleX := 1, scaleY := 1, rotation := 0,
                  opacity := 1 }, some 0, some "none"⟩

/-- Claim C1 counterexample: with tween A at playhead 1 carrying rotation
360 and tween B at playhead 3, interpolating at position 1 (A's own
position) yields rotation 0, not A's rotation 360 — the normalization
loops rewrite the endpoint before the boundary value is produced, so the
returned transformation does not equal A's on all six channels. -/
theorem interpolate_boundary_cex :
    Option.map (fun tw => tw.transformation.rotation)
      (Tween.interpolate cx1A cx1B 1) = some 0
    ∧ cx1A.transformation.rotation = 360
    ∧ cx1A.playheadPosition = 1
    ∧ cx1B.playheadPosition = 3
    ∧ decide ((0 : ℚ) = 360) = false := by
  have he : cx1A._easingType = some "none" := rfl
  have hfn := getTweenFunction_none cx1A he
  have hcr : constrainRot 360 = 0 := by
    have h1 : (360 : ℚ) - 360 = 0 := by norm_num
    unfold constrainRot
    rw [constrainLow_id 360 (by norm_num), constrainHigh_step 360 (by norm_num),
      h1, constrainHigh_id 0 (by norm_num)]
  refine ⟨?_, rfl, rfl, rfl, rfl⟩
  rw [interpolate_eq_of_fn cx1A cx1B 1 linearNone hfn]
  have hA : cx1A.transformation.rotation = 360 := rfl
  have ht : Tween.calculateTimeValue cx1A cx1B 1 = 0 := by
    unfold Tween.calculateTimeValue
    norm_num [cx1A, cx1B, Tween.construct, Tween.setEasingType, VALID_EASING_TYPES]
  simp only [Option.map, hA, hcr, ht]
  norm_num [lerp, linearNone]

/-- Claim C1 (amended): for every pair of tweens A, B with
A.playheadPosition strictly below B.playheadPosition and a valid easing
type on A, interpolating at A's own playhead position returns a tween
whose transformation equals A's exactly on x, y, scaleX, scaleY and
opacity; the rotation channel equals A's rotation normalized into
[-180, 180] by the constraining loops, and therefore equals A's rotation
exactly whenever A's rotation already lies in that interval. -/
theorem interpolate_boundary_identity (A B : Tween) (e : String)
    (he : A._easingType = some e) (hv : e ∈ VALID_EASING_TYPES)
    (hlt : A.playheadPosition < B.playheadPosition) :
    Option.map (fun tw => tw.transformation.x)
      (Tween.interpolate A B A.playheadPosition) = some A.transformation.x
    ∧ Option.map (fun tw => tw.transformation.y)
      (Tween.interpolate A B A.playheadPosition) = some A.transformation.y
    ∧ Option.map (fun tw => tw.transformation.scaleX)
      (Tween.interpolate A B A.playheadPosition) = some A.transformation.scaleX
    ∧ Option.map (fun tw => tw.transformation.scaleY)
      (Tween.interpolate A B A.playheadPosition) = some A.transformation.scaleY
    ∧ Option.map (fun tw => tw.transformation.opacity)
      (Tween.interpolate A B A.playheadPosition) = some A.transformation.opacity
    ∧ Option.map (fun tw => tw.transformation.rotation)
      (Tween.interpolate A B A.playheadPosition)
      = some (constrainRot A.transformation.rotation)
    ∧ (-180 ≤ A.transformation.rotation → A.transformation.rotation ≤ 180 →
        Option.map (fun tw => tw.transformation.rotation)
          (Tween.interpolate A B A.playheadPosition)
          = some A.transformation.rotation) := by
  obtain ⟨fn, hfn, h0, -⟩ := getTweenFunction_of_valid A e he hv
  have hint := interpolate_eq_of_fn A B A.playheadPosition fn hfn
  have ht : Tween.calculateTimeValue A B A.playheadPosition = 0 := by
    unfold Tween.calculateTimeValue
    simp
  rw [hint]
  simp only [Option.map_some', ht, h0]
  refine ⟨by simp [lerp], by simp [lerp], by simp [lerp], by simp [lerp],
    by simp [lerp], by simp [lerp], ?_⟩
  intro h1 h2
  simp [lerp, constrainRot_id A.transformation.rotation h1 h2]

/-- Witness tween A for the amended claim C1: rotation 450, outside
[-180, 180], so the rotation channel shows the normalized value 90. -/
def w1A : Tween := Tween.construct
  ⟨some 2, some { x := 7, y := -3, scaleX := 2, scaleY := 3, rotation := 450,
                  opacity := 1/2 }, some 1, some "in"⟩

/-- Witness partner tween for the amended claim C1. -/
def w1B : Tween := Tween.construct
  ⟨some 6, some { x := 100, y := 50, scaleX := 1, scaleY := 1,
                  rotation := -120, opacity := 1 }, some 0, some "out"⟩

/-- Witness tween for the amended claim C1 with an in-range rotation, so
the rotation channel reproduces it exactly. -/
def w1C : Tween := Tween.construct
  ⟨some 2, some { x := 7, y := -3, scaleX := 2, scaleY := 3, rotation := 90,
                  opacity := 1/2 }, some 1, some "in"⟩

/-- Concrete witness: the amended claim C1 at w1A and w1B (rotation 450
normalizes to 90) and at w1C and w1B (in-range rotation 90 reproduced
exactly). -/
theorem interpolate_boundary_identity_witness :
    Option.map (fun tw => tw.transformation.x)
      (Tween.interpolate w1A w1B w1A.playheadPosition)
      = some w1A.transformation.x
    ∧ Option.map (fun tw => tw.transformation.opacity)
      (Tween.interpolate w1A w1B w1A.playheadPosition)
      = some w1A.transformation.opacity
    ∧ Option.map (fun tw => tw.transformation.rotation)
      (Tween.interpolate w1A w1B w1A.playheadPosition)
      = some (constrainRot w1A.transformation.rotation)
    ∧ constrainRot w1A.transformation.rotation = 90
    ∧ Option.map (fun tw => tw.transformation.rotation)
      (Tween.interpolate w1C w1B w1C.playheadPosition)
      = some w1C.transformation.rotation := by
  obtain ⟨hx, -, -, -, hop, hrot, -⟩ :=
    interpolate_boundary_identity w1A w1B "in" rfl (by decide) (by decide)
  obtain ⟨-, -, -, -, -, -, hrange⟩ :=
    interpolate_boundary_identity w1C w1B "in" rfl (by decide) (by decide)
  have hnorm : constrainRot w1A.transformation.rotation = 90 := by
    have h450 : w1A.transformation.rotation = 450 := rfl
    rw [h450]
    unfold constrainRot
    rw [constrainLow_id 450 (by norm_num), constrainHigh_step 450 (by norm_num)]
    norm_num
    rw [constrainHigh_id 90 (by norm_num)]
  exact ⟨hx, hop, hrot, hnorm, hrange (by decide) (by decide)⟩

/-- Claim C2: with tween A carrying rotation 170, tween B carrying
rotation -170, one full rotation configured on A and linear easing, the
rotation channel produced by Wick.Tween.interpolate is the affine map
170 + 20 * t of the time value: it is strictly increasing in the query
position (never snaps backward), starts at 170 at A's position, passes
through 180 exactly at the midpoint, and reaches 190 at B's position,
where 190 is the same angle as -170 plus one full turn. -/
theorem interpolate_rotation_wraparound (A B : Tween)
    (he : A._easingType = some "none")
    (hArot : A.transformation.rotation = 170)
    (hBrot : B.transformation.rotation = -170)
    (hfull : A.fullRotations = 1)
    (hlt : A.playheadPosition < B.playheadPosition) :
    (∀ p, Option.map (fun tw => tw.transformation.rotation)
        (Tween.interpolate A B p)
        = some (170 + 20 * ((p - A.playheadPosition) /
            (B.playheadPosition - A.playheadPosition))))
    ∧ (∀ p q, p < q →
        170 + 20 * ((p - A.playheadPosition) /
          (B.playheadPosition - A.playheadPosition))
        < 170 + 20 * ((q - A.playheadPosition) /
          (B.playheadPosition - A.playheadPosition)))
    ∧ Option.map (fun tw => tw.transformation.rotation)
        (Tween.interpolate A B A.playheadPosition) = some 170
    ∧ Option.map (fun tw => tw.transformation.rotation)
        (Tween.interpolate A B ((A.playheadPosition + B.playheadPosition) / 2))
        = some 180
    ∧ Option.map (fun tw => tw.transformation.rotation)
        (Tween.interpolate A B B.playheadPosition) = some 190
    ∧ (190 : ℚ) = -170 + 1 * 360 := by
  have hfn := getTweenFunction_none A he
  have hc170 : constrainRot 170 = 170 :=
    constrainRot_id 170 (by norm_num) (by norm_num)
  have hcm170 : constrainRot (-170) = -170 :=
    constrainRot_id (-170) (by norm_num) (by norm_num)
  have hd : 0 < B.playheadPosition - A.playheadPosition := by linarith
  have hd0 : B.playheadPosition - A.playheadPosition ≠ 0 := ne_of_gt hd
  have hform : ∀ p, Option.map (fun tw => tw.transformation.rotation)
      (Tween.interpolate A B p)
      = some (170 + 20 * ((p - A.playheadPosition) /
          (B.playheadPosition - A.playheadPosition))) := by
    intro p
    rw [interpolate_eq_of_fn A B p linearNone hfn]
    simp only [Option.map_some']
    congr 1
    rw [hArot, hBrot, hfull, hc170, hcm170]
    unfold lerp linearNone Tween.calculateTimeValue
    ring
  have hmono : ∀ p q, p < q →
      170 + 20 * ((p - A.playheadPosition) /
        (B.playheadPosition - A.playheadPosition))
      < 170 + 20 * ((q - A.playheadPosition) /
        (B.playheadPosition - A.playheadPosition)) := by
    intro p q hpq
    have h1 : (p - A.playheadPosition) / (B.playheadPosition - A.playheadPosition)
        < (q - A.playheadPosition) / (B.playheadPosition - A.playheadPosition) := by
      apply div_lt_div_of_pos_right _ hd
      linarith
    linarith
  refine ⟨hform, hmono, ?_, ?_, ?_, by norm_num⟩
  · rw [hform]
    congr 1
    rw [sub_self, zero_div]
    ring
  · rw [hform]
    congr 1
    have : ((A.playheadPosition + B.playheadPosition) / 2 - A.playheadPosition) /
        (B.playheadPosition - A.playheadPosition) = 1 / 2 := by
      field_simp
      ring
    rw [this]
    norm_num
  · rw [hform]
    congr 1
    rw [div_self hd0]
    norm_num

/-- Witness tween A for claim C2: rotation 170, one full rotation, linear
easing, playhead 1. -/
def w2A : Tween := Tween.construct
  ⟨some 1, some { x := 0, y := 0, scaleX := 1, scaleY := 1, rotation := 170,
                  opacity := 1 }, some 1, some "none"⟩

/-- Witness tween B for claim C2: rotation -170, playhead 3. -/
def w2B : Tween := Tween.construct
  ⟨some 3, some { x := 0, y := 0, scaleX := 1, scaleY := 1, rotation := -170,
                  opacity := 1 }, some 0, some "none"⟩

/-- Concrete witness: claim C2 evaluated at w2A and w2B; the rotation
starts at 170, is 180 at the midpoint position 2, and ends at 190. -/
theorem interpolate_rotation_wraparound_witness :
    Option.map (fun tw => tw.transformation.rotation)
      (Tween.interpolate w2A w2B 1) = some 170
    ∧ Option.map (fun tw => tw.transformation.rotation)
      (Tween.interpolate w2A w2B 2) = some 180
    ∧ Option.map (fun tw => tw.transformation.rotation)
      (Tween.interpolate w2A w2B 3) = some 190 := by
  obtain ⟨-, -, h1, h2, h3, -⟩ :=
    interpolate_rotation_wraparound w2A w2B rfl rfl rfl rfl (by decide)
  have e1 : w2A.playheadPosition = 1 := rfl
  have e3 : w2B.playheadPosition = 3 := rfl
  rw [e1] at h1
  have hmid : (w2A.playheadPosition + w2B.playheadPosition) / 2 = (2 : ℚ) := by
    rw [e1, e3]
    norm_num
  rw [hmid] at h2
  rw [e3] at h3
  exact ⟨h1, h2, h3⟩

/-- Claim C3: for every pair of tweens (with a valid easing selection on
tween A so the interpolation can run), both endpoint rotation values are
brought into [-180, 180] by the terminating normalization loops and
differ from the originals by integer multiples of 360; the destination
rotation is additionally offset by tweenA.fullRotations * 360; and every
non-rotation channel is plain linear interpolation of its raw endpoint
values. -/
theorem interpolate_rotation_normalization (A B : Tween) (e : String)
    (he : A._easingType = some e) (hv : e ∈ VALID_EASING_TYPES) :
    (-180 ≤ constrainRot A.transformation.rotation
      ∧ constrainRot A.transformation.rotation ≤ 180)
    ∧ (-180 ≤ constrainRot B.transformation.rotation
      ∧ constrainRot B.transformation.rotation ≤ 180)
    ∧ (∃ k : ℤ, constrainRot A.transformation.rotation
        = A.transformation.rotation + 360 * k)
    ∧ (∃ k : ℤ, constrainRot B.transformation.rotation
        = B.transformation.rotation + 360 * k)
    ∧ ∃ fn, A.getTweenFunction = some fn ∧ ∀ p,
        Tween.interpolate A B p = some
          { playheadPosition := p,
            transformation :=
              { x := lerp A.transformation.x B.transformation.x
                  (fn (Tween.calculateTimeValue A B p)),
                y := lerp A.transformation.y B.transformation.y
                  (fn (Tween.calculateTimeValue A B p)),
                scaleX := lerp A.transformation.scaleX B.transformation.scaleX
                  (fn (Tween.calculateTimeValue A B p)),
                scaleY := lerp A.transformation.scaleY B.transformation.scaleY
                  (fn (Tween.calculateTimeValue A B p)),
                rotation := lerp (constrainRot A.transformation.rotation)
                  (constrainRot B.transformation.rotation
                    + A.fullRotations * 360)
                  (fn (Tween.calculateTimeValue A B p)),
                opacity := lerp A.transformation.opacity B.transformation.opacity
                  (fn (Tween.calculateTimeValue A B p)) },
            fullRotations := 0, _easingType := some "none" } := by
  obtain ⟨fn, hfn, -, -⟩ := getTweenFunction_of_valid A e he hv
  refine ⟨⟨constrainRot_ge _, constrainRot_le _⟩,
    ⟨constrainRot_ge _, constrainRot_le _⟩,
    constrainRot_mod _, constrainRot_mod _,
    fn, hfn, fun p => interpolate_eq_of_fn A B p fn hfn⟩

/-- Witness tween A for claim C3: rotation 500 (normalizes to 140),
quadratic ease-in. -/
def w3A : Tween := Tween.construct
  ⟨some 1, some { x := 8, y := 0, scaleX := 1, scaleY := 1, rotation := 500,
                  opacity := 1 }, some 2, some "in"⟩

/-- Witness tween B for claim C3: rotation -190 (normalizes to 170). -/
def w3B : Tween := Tween.construct
  ⟨some 5, some { x := 16, y := 0, scaleX := 1, scaleY := 1,
                  rotation := -190, opacity := 1 }, some 0, some "none"⟩

/-- Concrete witness: claim C3 evaluated at w3A and w3B. -/
theorem interpolate_rotation_normalization_witness :
    (-180 ≤ constrainRot w3A.transformation.rotation
      ∧ constrainRot w3A.transformation.rotation ≤ 180)
    ∧ (-180 ≤ constrainRot w3B.transformation.rotation
      ∧ constrainRot w3B.transformation.rotation ≤ 180)
    ∧ Option.map (fun tw => tw.transformation.x)
        (Tween.interpolate w3A w3B 2)
        = some (lerp w3A.transformation.x w3B.transformation.x
            (quadraticIn (Tween.calculateTimeValue w3A w3B 2))) := by
  obtain ⟨hA, hB, -, -, fn, hfn, hall⟩ :=
    interpolate_rotation_normalization w3A w3B "in" rfl (by decide)
  have hfn' : fn = quadraticIn := by
    have hq := getTweenFunction_in w3A rfl
    rw [hq] at hfn
    exact (Option.some.inj hfn).symm
  refine ⟨hA, hB, ?_⟩
  rw [hall 2, hfn']
  simp only [Option.map_some']

/-- Claim C4: when tween A's easing type is the string none, the selected
easing curve is the identity (tt equals t), and each interpolated channel
equals valA + (valB - valA) * t with
t = (position - A.playheadPosition) / (B.playheadPosition -
A.playheadPosition), where valA and valB are the per-channel endpoint
values read by the code (the raw values on x, y, scaleX, scaleY and
opacity; the normalized and fullRotations-offset values on rotation). -/
theorem easing_none_linear (A B : Tween)
    (he : A._easingType = some "none") (p : ℚ) :
    A.getTweenFunction = some linearNone
    ∧ (∀ t : ℚ, linearNone t = t)
    ∧ Tween.interpolate A B p = some
        { playheadPosition := p,
          transformation :=
            { x := A.transformation.x
                + (B.transformation.x - A.transformation.x)
                * ((p - A.playheadPosition)
                  / (B.playheadPosition - A.playheadPosition)),
              y := A.transformation.y
                + (B.transformation.y - A.transformation.y)
                * ((p - A.playheadPosition)
                  / (B.playheadPosition - A.playheadPosition)),
              scaleX := A.transformation.scaleX
                + (B.transformation.scaleX - A.transformation.scaleX)
                * ((p - A.playheadPosition)
                  / (B.playheadPosition - A.playheadPosition)),
              scaleY := A.transformation.scaleY
                + (B.transformation.scaleY - A.transformation.scaleY)
                * ((p - A.playheadPosition)
                  / (B.playheadPosition - A.playheadPosition)),
              rotation := constrainRot A.transformation.rotation
                + (constrainRot B.transformation.rotation
                    + A.fullRotations * 360
                    - constrainRot A.transformation.rotation)
                * ((p - A.playheadPosition)
                  / (B.playheadPosition - A.playheadPosition)),
              opacity := A.transformation.opacity
                + (B.transformation.opacity - A.transformation.opacity)
                * ((p - A.playheadPosition)
                  / (B.playheadPosition - A.playheadPosition)) },
          fullRotations := 0, _easingType := some "none" } := by
  have hfn := getTweenFunction_none A he
  refine ⟨hfn, fun t => rfl, ?_⟩
  rw [interpolate_eq_of_fn A B p linearNone hfn]
  rfl

/-- Witness tween A for claim C4: linear easing, playhead 1, x equal
to 10. -/
def w4A : Tween := Tween.construct
  ⟨some 1, some { x := 10, y := 2, scaleX := 1, scaleY := 1, rotation := 0,
                  opacity := 1 }, some 0, some "none"⟩

/-- Witness tween B for claim C4: playhead 5, x equal to 20. -/
def w4B : Tween := Tween.construct
  ⟨some 5, some { x := 20, y := 6, scaleX := 3, scaleY := 1, rotation := 0,
                  opacity := 1 }, some 0, some "in-out"⟩

/-- Concrete witness: claim C4 at w4A, w4B and query position 2, where
t = 1/4 and the x channel is 10 + (20 - 10) * (1/4) = 25/2. -/
theorem easing_none_linear_witness :
    linearNone (37 / 100) = 37 / 100
    ∧ Option.map (fun tw => tw.transformation.x)
        (Tween.interpolate w4A w4B 2) = some (25 / 2) := by
  obtain ⟨hfn, hlin, hinterp⟩ := easing_none_linear w4A w4B rfl 2
  refine ⟨hlin _, ?_⟩
  rw [hinterp]
  simp only [Option.map_some']
  have hx1 : w4A.transformation.x = 10 := rfl
  have hx2 : w4B.transformation.x = 20 := rfl
  have hp1 : w4A.playheadPosition = 1 := rfl
  have hp2 : w4B.playheadPosition = 5 := rfl
  simp only [hx1, hx2, hp1, hp2]
  norm_num

/-- The serialize-then-deserialize round trip as performed by
Wick.Project.deserializeData: a fresh object is built with
new Wick.Tween() and its deserialize method is called on the serialized
data. -/
def tweenRoundTrip (tw : Tween) : Tween :=
  Tween.deserialize (Tween.construct ⟨none, none, none, none⟩)
    (Tween.serialize tw)

/-- Claim C5: for every tween holding a valid easing type, serializing
and deserializing reproduces playheadPosition, all six transformation
channels, fullRotations and easingType exactly. -/
theorem tween_serialize_roundtrip (tw : Tween) (e : String)
    (he : tw._easingType = some e) (hv : e ∈ VALID_EASING_TYPES) :
    (tweenRoundTrip tw).playheadPosition = tw.playheadPosition
    ∧ (tweenRoundTrip tw).transformation = tw.transformation
    ∧ (tweenRoundTrip tw).fullRotations = tw.fullRotations
    ∧ (tweenRoundTrip tw).easingType = tw.easingType := by
  simp only [tweenRoundTrip, Tween.deserialize, Tween.serialize,
    Tween.easingType, he, Tween.setEasingType]
  rw [if_pos hv]
  exact ⟨rfl, rfl, rfl, rfl⟩

/-- Witness tween for claim C5. -/
def w5 : Tween := Tween.construct
  ⟨some 9, some { x := -4, y := 11, scaleX := 1/3, scaleY := 7,
                  rotation := 540, opacity := 3/4 }, some 3,
    some "in-out"⟩

/-- Concrete witness: claim C5 at w5. -/
theorem tween_serialize_roundtrip_witness :
    (tweenRoundTrip w5).playheadPosition = w5.playheadPosition
    ∧ (tweenRoundTrip w5).transformation = w5.transformation
    ∧ (tweenRoundTrip w5).fullRotations = w5.fullRotations
    ∧ (tweenRoundTrip w5).easingType = w5.easingType :=
  tween_serialize_roundtrip w5 "in-out" rfl (by decide)

/-- Claim C6: the easing choice is pinned to tween A; two calls to
Wick.Tween.interpolate whose arguments differ only in tween B's easing
type return the same result, so in particular the interpolated
transformations are equal. -/
theorem interpolate_ignores_tweenB_easing (A B B' : Tween) (p : ℚ)
    (hph : B.playheadPosition = B'.playheadPosition)
    (htr : B.transformation = B'.transformation)
    (hfr : B.fullRotations = B'.fullRotations) :
    Tween.interpolate A B p = Tween.interpolate A B' p := by
  unfold Tween.interpolate Tween.calculateTimeValue
  rw [hph, htr]

/-- Witness tween A for claim C6. -/
def w6A : Tween := Tween.construct
  ⟨some 1, some { x := 3, y := 1, scaleX := 1, scaleY := 1, rotation := 45,
                  opacity := 1 }, some 0, some "out"⟩

/-- Witness tween B for claim C6: quadratic ease-in easing. -/
def w6B : Tween := Tween.construct
  ⟨some 4, some { x := 9, y := 5, scaleX := 2, scaleY := 2, rotation := -45,
                  opacity := 1/2 }, some 2, some "in"⟩

/-- Witness tween B-prime for claim C6: same state as w6B except its
easing type. -/
def w6B' : Tween := Tween.construct
  ⟨some 4, some { x := 9, y := 5, scaleX := 2, scaleY := 2, rotation := -45,
                  opacity := 1/2 }, some 2, some "in-out"⟩

/-- Concrete witness: claim C6 at w6A, w6B and w6B', which differ only in
tween B's stored easing type. -/
theorem interpolate_ignores_tweenB_easing_witness :
    Tween.interpolate w6A w6B 2 = Tween.interpolate w6A w6B' 2
    ∧ decide (w6B._easingType = w6B'._easingType) = false :=
  ⟨interpolate_ignores_tweenB_easing w6A w6B w6B' 2 rfl rfl rfl, rfl⟩

/-- Claim C7: a tick reports script failure as a value — Wick.Project.tick
returns the error collected from ticking the focused clip (none when no
script failed) rather than throwing, and the play loop treats that value
as the tick's error: when it is truthy it passes it to onError, clears
the tick interval (stopping playback) and skips onAfterTick; when it is
falsy playback continues. -/
theorem project_tick_error_as_value (p : Project) :
    ((p.tick).2 = p.focusClip.tick)
    ∧ ((p.tick).2 = firstScriptError p.focusClip.scripts)
    ∧ (∀ e, (p.tick).2 = some e →
        p.playStep.2.1 = some e ∧ (p.playStep.1)._tickIntervalID = none
          ∧ p.playStep.2.2 = false)
    ∧ ((p.tick).2 = none → p.playStep.2.1 = none ∧ p.playStep.2.2 = true) := by
  refine ⟨rfl, rfl, ?_, ?_⟩
  · intro e hE
    simp [Project.playStep, hE, Project.stop]
  · intro hE
    simp [Project.playStep, hE]

/-- Witness clip for claim C7: its second script fails with the message
boom. -/
def w7Clip : Clip :=
  { uuid := "root",
    scripts := [ScriptOutcome.success, ScriptOutcome.failure ⟨"boom"⟩,
      ScriptOutcome.success],
    subclipPlayheads := [2] }

/-- Witness project for claim C7, currently playing (interval id 5) and
focused on w7Clip. -/
def w7Proj : Project :=
  { name := "My Project", width := 720, height := 405, framerate := 12,
    backgroundColor := "#ffffff", panX := 0, panY := 0, zoom := 1,
    onionSkinEnabled := false, onionSkinSeekBackwards := 1,
    onionSkinSeekForwards := 1, _focus := "root", focusClip := w7Clip,
    selectionUUIDs := [], _keysDown := [], _keysLastDown := [],
    _tickIntervalID := some 5 }

/-- Concrete witness: claim C7 at w7Proj, whose focused clip's second
script fails; the tick returns the failure, the play loop passes it to
onError and stops. -/
theorem project_tick_error_as_value_witness :
    ((w7Proj.tick).2 = some ⟨"boom"⟩)
    ∧ w7Proj.playStep.2.1 = some ⟨"boom"⟩
    ∧ (w7Proj.playStep.1)._tickIntervalID = none
    ∧ w7Proj.playStep.2.2 = false := by
  obtain ⟨-, -, h3, -⟩ := project_tick_error_as_value w7Proj
  have htick : (w7Proj.tick).2 = some ⟨"boom"⟩ := rfl
  obtain ⟨a, b, c⟩ := h3 ⟨"boom"⟩ htick
  exact ⟨htick, a, b, c⟩

/-- q is a positive integer (in the rational embedding of JavaScript
numbers). -/
def isPositiveInteger (q : ℚ) : Prop := ∃ n : ℤ, 0 < n ∧ q = (n : ℚ)

/-- The playheadPosition the Wick.Tween constructor stores, as a function
of the argument: args.playheadPosition || 1. -/
theorem construct_playheadPosition (args : TweenArgs) :
    (Tween.construct args).playheadPosition =
      match args.playheadPosition with
      | none => 1
      | some v => if v = 0 then 1 else v := by
  unfold Tween.construct Tween.setEasingType
  dsimp only
  split <;> rfl

/-- The focus setter resets every subclip playhead of the new focus
to 1. -/
theorem setFocus_subclipPlayheads (p : Project) (c : Clip) :
    ((p.setFocus c).focusClip).subclipPlayheads
      = c.subclipPlayheads.map (fun _ => (1 : ℚ)) := by
  unfold Project.setFocus
  dsimp only
  split <;> rfl

/-- Claim C8 counterexample: the Wick.Tween constructor only guards
against falsy playheadPosition arguments (args.playheadPosition || 1), so
the truthy negative number -5 is stored unchanged and the resulting
playheadPosition is not positive. -/
theorem tween_construct_playhead_cex :
    (Tween.construct ⟨some (-5), none, none, none⟩).playheadPosition = -5
    ∧ decide ((0 : ℚ) < (Tween.construct
        ⟨some (-5), none, none, none⟩).playheadPosition) = false :=
  ⟨rfl, rfl⟩

/-- Claim C8 (amended): every playhead write in the cited operations
yields a positive integer provided the Tween constructor's
playheadPosition argument is absent, zero, or itself a positive integer
(the constructor passes any other truthy number through unchanged): the
constructor then stores a positive integer, the Project focus setter
resets each subclip timeline's playhead to 1, and generateImageSequence
starts the playhead at 1 and only increments it by 1, which preserves
positive integrality. -/
theorem playhead_writes_positive_integer :
    (∀ args : TweenArgs,
      (args.playheadPosition = none ∨ args.playheadPosition = some 0 ∨
        ∃ v, args.playheadPosition = some v ∧ isPositiveInteger v) →
      isPositiveInteger (Tween.construct args).playheadPosition)
    ∧ (∀ (p : Project) (c : Clip) (q : ℚ),
        q ∈ ((p.setFocus c).focusClip).subclipPlayheads →
        q = 1 ∧ isPositiveInteger q)
    ∧ isPositiveInteger generateImageSequenceInitialPlayhead
    ∧ (∀ ph len next : ℚ, isPositiveInteger ph →
        generateImageSequenceStep ph len = some next →
        isPositiveInteger next) := by
  refine ⟨?_, ?_, ⟨1, one_pos,
    by norm_num [generateImageSequenceInitialPlayhead]⟩, ?_⟩
  · intro args h
    rw [construct_playheadPosition]
    rcases h with h | h | ⟨v, hv, n, hn, rfl⟩
    · rw [h]
      exact ⟨1, one_pos, by norm_num⟩
    · rw [h]
      simp only [if_pos rfl]
      exact ⟨1, one_pos, by norm_num⟩
    · rw [hv]
      have hne : (n : ℚ) ≠ 0 := by
        have : (0 : ℚ) < (n : ℚ) := by exact_mod_cast hn
        linarith
      show isPositiveInteger (if (n : ℚ) = 0 then 1 else (n : ℚ))
      rw [if_neg hne]
      exact ⟨n, hn, rfl⟩
  · intro p c q hq
    rw [setFocus_subclipPlayheads] at hq
    obtain ⟨a, -, rfl⟩ := List.mem_map.mp hq
    exact ⟨rfl, 1, one_pos, by norm_num⟩
  · intro ph len next hph hstep
    obtain ⟨n, hn, rfl⟩ := hph
    unfold generateImageSequenceStep at hstep
    by_cases hc : (n : ℚ) ≥ len
    · rw [if_pos hc] at hstep
      exact absurd hstep (by simp)
    · rw [if_neg hc] at hstep
      obtain rfl := Option.some.inj hstep.symm
      exact ⟨n + 1, by omega, by push_cast; ring⟩

/-- Witness clip for the amended claim C8: subclip playheads 4 and 9
before the focus change. -/
def w8Clip : Clip :=
  { uuid := "inner", scripts := [], subclipPlayheads := [4, 9] }

/-- Witness project for the amended claim C8. -/
def w8Proj : Project :=
  { name := "My Project", width := 720, height := 405, framerate := 12,
    backgroundColor := "#ffffff", panX := 3, panY := -2, zoom := 2,
    onionSkinEnabled := false, onionSkinSeekBackwards := 1,
    onionSkinSeekForwards := 1, _focus := "root", focusClip := w7Clip,
    selectionUUIDs := ["sel-1"], _keysDown := [], _keysLastDown := [],
    _tickIntervalID := none }

/-- Concrete witness: the amended claim C8 at concrete inputs — the
constructor argument 5, a focus change onto w8Clip, and one
generateImageSequence increment from playhead 2. -/
theorem playhead_writes_positive_integer_witness :
    isPositiveInteger (Tween.construct
      ⟨some 5, none, none, none⟩).playheadPosition
    ∧ isPositiveInteger generateImageSequenceInitialPlayhead
    ∧ ((1 : ℚ) = 1 ∧ isPositiveInteger (1 : ℚ))
    ∧ isPositiveInteger (3 : ℚ) := by
  obtain ⟨h1, h2, h3, h4⟩ := playhead_writes_positive_integer
  have hmem : (1 : ℚ) ∈ ((w8Proj.setFocus w8Clip).focusClip).subclipPlayheads := by
    rw [setFocus_subclipPlayheads]
    decide
  refine ⟨h1 _ (Or.inr (Or.inr ⟨5, rfl, 5, by norm_num, by norm_num⟩)),
    h3, h2 w8Proj w8Clip 1 hmem,
    h4 2 10 3 ⟨2, by norm_num, by norm_num⟩
      (by norm_num [generateImageSequenceStep])⟩

/-- The invariant claimed for a tween's stored easing type: the backing
field holds one of the valid easing types. -/
def easingValid (tw : Tween) : Prop :=
  ∃ e ∈ VALID_EASING_TYPES, tw._easingType = some e

instance (tw : Tween) : Decidable (easingValid tw) := by
  unfold easingValid
  infer_instance

/-- The setter stores a valid easing type. -/
theorem setEasingType_easing (tw : Tween) (e : String)
    (hv : e ∈ VALID_EASING_TYPES) :
    (Tween.setEasingType tw e)._easingType = some e := by
  unfold Tween.setEasingType
  rw [if_pos hv]

/-- Claim C9 counterexample: constructing a tween with the truthy invalid
easingType argument banana routes it through the setter, which rejects it
without storing anything, so the backing field stays undefined (none) and
the claimed always-valid invariant fails right at construction. -/
theorem easing_invariant_cex :
    (Tween.construct ⟨none, none, none, some "banana"⟩)._easingType = none
    ∧ decide (easingValid
        (Tween.construct ⟨none, none, none, some "banana"⟩)) = false :=
  ⟨rfl, rfl⟩

/-- Claim C9 (amended): the easingType setter leaves the stored value
unchanged on any value outside the valid list, so it preserves validity;
the constructor establishes validity whenever its easingType argument is
absent, empty, or valid (a truthy invalid argument instead leaves the
field undefined); and deserializing data carrying a valid easingType
yields a valid stored value. -/
theorem easing_invariant :
    (∀ args : TweenArgs,
      (args.easingType = none ∨ args.easingType = some "" ∨
        ∃ e ∈ VALID_EASING_TYPES, args.easingType = some e) →
      easingValid (Tween.construct args))
    ∧ (∀ (tw : Tween) (e : String), easingValid tw →
        easingValid (Tween.setEasingType tw e))
    ∧ (∀ (tw : Tween) (e : String), e ∉ VALID_EASING_TYPES →
        Tween.setEasingType tw e = tw)
    ∧ (∀ (tw : Tween) (data : TweenData),
        (∃ e ∈ VALID_EASING_TYPES, data.easingType = some e) →
        easingValid (Tween.deserialize tw data)) := by
  refine ⟨?_, ?_, ?_, ?_⟩
  · intro args h
    rcases h with h | h | ⟨e, he, hsome⟩
    · refine ⟨"none", by decide, ?_⟩
      have hm : (match args.easingType with
          | none => "none"
          | some s => if s = "" then "none" else s) = "none" := by rw [h]
      simp only [Tween.construct]
      rw [hm]
      exact setEasingType_easing _ _ (by decide)
    · refine ⟨"none", by decide, ?_⟩
      have hm : (match args.easingType with
          | none => "none"
          | some s => if s = "" then "none" else s) = "none" := by
        rw [h]
        rfl
      simp only [Tween.construct]
      rw [hm]
      exact setEasingType_easing _ _ (by decide)
    · have hm : (match args.easingType with
          | none => "none"
          | some s => if s = "" then "none" else s) = e := by
        rw [hsome]
        have he' := he
        simp only [VALID_EASING_TYPES, List.mem_cons, List.not_mem_nil,
          or_false] at he'
        rcases he' with rfl | rfl | rfl | rfl <;> rfl
      refine ⟨e, he, ?_⟩
      simp only [Tween.construct]
      rw [hm]
      exact setEasingType_easing _ _ he
  · intro tw e hvalid
    by_cases h : e ∈ VALID_EASING_TYPES
    · exact ⟨e, h, setEasingType_easing tw e h⟩
    · obtain ⟨e0, he0, hst⟩ := hvalid
      refine ⟨e0, he0, ?_⟩
      unfold Tween.setEasingType
      rw [if_neg h]
      exact hst
  · intro tw e h
    unfold Tween.setEasingType
    rw [if_neg h]
  · intro tw data ⟨e, he, hd⟩
    refine ⟨e, he, ?_⟩
    simp only [Tween.deserialize, hd]
    exact setEasingType_easing _ _ he

/-- Concrete witness: the amended claim C9 — constructing with the valid
easing in yields a valid field, assigning the invalid value banana leaves
the tween unchanged, and assigning the valid value out preserves
validity. -/
theorem easing_invariant_witness :
    easingValid (Tween.construct ⟨none, none, none, some "in"⟩)
    ∧ Tween.setEasingType (Tween.construct ⟨none, none, none, some "in"⟩)
        "banana" = Tween.construct ⟨none, none, none, some "in"⟩
    ∧ easingValid (Tween.setEasingType
        (Tween.construct ⟨none, none, none, some "in"⟩) "out") := by
  obtain ⟨h1, h2, h3, -⟩ := easing_invariant
  have hv : easingValid (Tween.construct ⟨none, none, none, some "in"⟩) :=
    h1 _ (Or.inr (Or.inr ⟨"in", by decide, rfl⟩))
  exact ⟨hv, h3 _ _ (by decide), h2 _ _ hv⟩

/-- Claim C10: the Wick.Project instance method deserialize never
successfully returns a deserialized project — for every receiver state
and every input data its final statement evaluates the undeclared
identifier object, so the call always terminates with a ReferenceError
instead of returning a Project, and a project-level serialize-then-
deserialize round trip through this method cannot complete. -/
theorem project_deserialize_never_returns (p : Project) (data : ProjectData) :
    Project.deserialize p data = JSOutcome.referenceError "object" :=
  rfl

/-- Witness data for claim C10. -/
def w10Data : ProjectData :=
  { name := "My Project", width := 720, height := 405, framerate := 12,
    backgroundColor := "#ffffff", pan := some (10, 20), zoom := 3/2,
    onionSkinEnabled := true, onionSkinSeekBackwards := 2,
    onionSkinSeekForwards := 3, root := "root-uuid",
    selection := "selection-uuid" }

/-- Concrete witness: claim C10 at w8Proj and w10Data. -/
theorem project_deserialize_never_returns_witness :
    Project.deserialize w8Proj w10Data = JSOutcome.referenceError "object" :=
  project_deserialize_never_returns w8Proj w10Data
